import Mathlib

/-!
# 05-colors-uniforms/main.cpp : a call-trace embedding

The program is a straight-line sequence of GLFW / GLEW / OpenGL calls followed
by one `while` loop.  Every source function is embedded as a pure function that
returns the list of library calls it issues (in program order) together with
its return value.  Values produced by the libraries (handles, compile status,
info log, key state, timer readings) are inputs of the embedding, and the
theorems quantify over all of them.
-/

namespace ColorsUniforms

/-! ## Header constants (GL/glew.h, GLFW/glfw3.h) -/

def GL_TRUE : Int := 1
def GL_FALSE : Int := 0
def GL_VERTEX_SHADER : Nat := 0x8B31
def GL_FRAGMENT_SHADER : Nat := 0x8B30
def GL_COMPILE_STATUS : Nat := 0x8B81
def GL_LINK_STATUS : Nat := 0x8B82
def GL_ARRAY_BUFFER : Nat := 0x8892
def GL_STATIC_DRAW : Nat := 0x88E4
def GL_FLOAT : Nat := 0x1406
def GL_TRIANGLES : Nat := 0x0004
def GL_COLOR_BUFFER_BIT : Nat := 0x4000
def GLFW_CONTEXT_VERSION_MAJOR : Int := 0x00022002
def GLFW_CONTEXT_VERSION_MINOR : Int := 0x00022003
def GLFW_OPENGL_FORWARD_COMPAT : Int := 0x00022006
def GLFW_RESIZABLE : Int := 0x00020003
def GLFW_KEY_ESCAPE : Int := 256
def GLFW_PRESS : Int := 1
def GLFW_RELEASE : Int := 0

/-- The size of a `float` / `GLfloat` in bytes. -/
def sizeofFloat : Nat := 4

/-! ## Numbers

A finite `double` is a dyadic rational, so timer readings are rationals.  A
`GLfloat` is a binary32 value: a rational or one of the two infinities. -/

/-- Values of the C type `double` (finite ones). -/
abbrev CDouble := ℚ

/-- Values of the type `GLfloat` (binary32, NaN left out). -/
inductive GLfloat where
  | negInf : GLfloat
  | fin (q : ℚ) : GLfloat
  | posInf : GLfloat
  deriving DecidableEq

/-- The order of binary32 values, as a boolean test. -/
def GLfloat.leb : GLfloat → GLfloat → Bool
  | .negInf, _ => true
  | .fin _, .negInf => false
  | .fin a, .fin b => decide (a ≤ b)
  | .fin _, .posInf => true
  | .posInf, .posInf => true
  | .posInf, _ => false

/-- Round to the nearest integer, ties to the even one. -/
def roundNE (x : ℚ) : ℤ :=
  if x - ⌊x⌋ < 1 / 2 then ⌊x⌋
  else if 1 / 2 < x - ⌊x⌋ then ⌊x⌋ + 1
  else if ⌊x⌋ % 2 = 0 then ⌊x⌋ else ⌊x⌋ + 1

/-- The binary32 exponent of a magnitude: `⌊log₂ x⌋`, not below the
subnormal exponent `-126`. -/
def f32Exp (x : ℚ) : ℤ := max (Int.log 2 x) (-126)

/-- The spacing of binary32 values around a magnitude (24 significant bits). -/
def f32Ulp (x : ℚ) : ℚ := (2 : ℚ) ^ (f32Exp x - 23)

/-- A magnitude rounded to 24 significant bits, exponent unbounded above. -/
def f32RoundMag (x : ℚ) : ℚ := (roundNE (x / f32Ulp x) : ℚ) * f32Ulp x

/-- The implicit conversion `double → float` applied to the argument of
`glUniform1f`: round to nearest, ties to even; a rounded magnitude of `2^128`
or more overflows to an infinity. -/
def narrow (t : CDouble) : GLfloat :=
  if 0 ≤ t then
    if f32RoundMag t < (2 : ℚ) ^ (128 : ℕ) then .fin (f32RoundMag t) else .posInf
  else
    if f32RoundMag (-t) < (2 : ℚ) ^ (128 : ℕ) then .fin (-(f32RoundMag (-t))) else .negInf

/-! ## Library calls -/

/-- One call into GLFW, GLEW, OpenGL or the C++ stream library, with its
arguments.  The constructors after `glfwTerminate` are calls of the same APIs
that `main.cpp` never issues; they are here so that their absence can be
stated. -/
inductive Call where
  | glfwInit
  | glfwSetErrorCallback
  | glfwWindowHint (hint value : Int)
  | glfwGetPrimaryMonitor
  | glfwCreateWindow (width height : Int) (title : String) (monitor : Nat)
  | glfwMakeContextCurrent (window : Nat)
  | setGlewExperimental (value : Int)
  | glewInit
  | glGenVertexArrays (n : Nat)
  | glBindVertexArray (vao : Nat)
  | glGenBuffers (n : Nat)
  | glBindBuffer (target buffer : Nat)
  | glBufferData (target size : Nat) (data : List GLfloat) (usage : Nat)
  | glCreateShader (type : Nat)
  | glShaderSource (shader count : Nat) (source : String)
  | glCompileShader (shader : Nat)
  | glGetShaderiv (shader pname : Nat)
  | glGetShaderInfoLog (shader maxLength : Nat)
  | cerrWrite (text : List Char)
  | cerrEndl
  | glCreateProgram
  | glAttachShader (program shader : Nat)
  | glBindFragDataLocation (program colorNumber : Nat) (name : String)
  | glLinkProgram (program : Nat)
  | glUseProgram (program : Nat)
  | glGetAttribLocation (program : Nat) (name : String)
  | glVertexAttribPointer (index : Nat) (size : Nat) (type : Nat) (normalized : Int)
      (stride : Nat) (offset : Nat)
  | glEnableVertexAttribArray (index : Nat)
  | glGetUniformLocation (program : Nat) (name : String)
  | glfwWindowShouldClose (window : Nat)
  | glfwSwapBuffers (window : Nat)
  | glfwPollEvents
  | glfwGetKey (window : Nat) (key : Int)
  | glfwSetWindowShouldClose (window : Nat) (value : Int)
  | glClearColor (r g b a : GLfloat)
  | glClear (mask : Nat)
  | glfwGetTime
  | glUniform1f (location : Int) (v0 : GLfloat)
  | glDrawArrays (mode : Nat) (first count : Nat)
  | glDeleteProgram (program : Nat)
  | glDeleteShader (shader : Nat)
  | glDeleteBuffers (n : Nat) (buffer : Nat)
  | glDeleteVertexArrays (n : Nat) (vao : Nat)
  | glfwTerminate
  | glGetProgramiv (program pname : Nat)
  | glDrawElements (mode count type offset : Nat)
  | glBufferSubData (target offset size : Nat) (data : List GLfloat)
  | exit (status : Int)
  | abort

/-! ## Program data -/

/-- The global `vertices` array (main.cpp lines 9-13). -/
def vertices : List GLfloat :=
  [ .fin 0, .fin (1 / 2), .fin 1, .fin 0, .fin 0,
    .fin (1 / 2), .fin (-1 / 2), .fin 0, .fin 1, .fin 0,
    .fin (-1 / 2), .fin (-1 / 2), .fin 0, .fin 0, .fin 1 ]

/-- The global `vertexSource` string. -/
def vertexSource : String :=
  "#version 140\n\nin vec2 position;\nin vec3 color;\nout vec3 fragColor;\n\nvoid main() \x7b\n    fragColor = color;\n    gl_Position = vec4(position, 0.0, 1.0);\n\x7d\n"

/-- The global `fragSource` string. -/
def fragSource : String :=
  "#version 140\n\nuniform float time;\nin vec3 fragColor;\nout vec4 outColor;\n\nvoid main() \x7b\n    outColor.x = (1 + sin(time)) / 2.0 * (1 - fragColor.x);\n    outColor.y = (1 + sin(time + 1.047)) / 2.0 * (1 - fragColor.y);\n    outColor.z = (1 + sin(time + 2.094)) / 2.0 * (1 - fragColor.z);\n    outColor.w = 1.0;\n\x7d\n"

/-! ## Setup helpers -/

/-- Calls issued by `init_glfw`. -/
def init_glfw : List Call :=
  [ .glfwInit,
    .glfwSetErrorCallback,
    .glfwWindowHint GLFW_CONTEXT_VERSION_MAJOR 3,
    .glfwWindowHint GLFW_CONTEXT_VERSION_MINOR 1,
    .glfwWindowHint GLFW_OPENGL_FORWARD_COMPAT GL_TRUE,
    .glfwWindowHint GLFW_RESIZABLE GL_FALSE ]

/-- Calls issued by `init_glew`. -/
def init_glew : List Call :=
  [ .setGlewExperimental GL_TRUE, .glewInit ]

/-- Embedding of `create_window`: `monitor` and `w` are what
`glfwGetPrimaryMonitor` and `glfwCreateWindow` return (`w = 0` is `NULL`). -/
def create_window (monitor w : Nat) (width height : Int) (title : String) :
    Nat × List Call :=
  (w, [ .glfwGetPrimaryMonitor,
        .glfwCreateWindow width height title monitor,
        .glfwMakeContextCurrent w ])

/-! ## Shader compiler -/

/-- What the driver answers during one `compile_shader` call. -/
structure ShaderOutcome where
  /-- the value returned by `glCreateShader` (`0` on failure) -/
  handle : Nat
  /-- the value `glGetShaderiv(.., GL_COMPILE_STATUS, ..)` stores -/
  status : Int
  /-- the information log of the shader object (a C string) -/
  infoLog : List Char

/-- The C string `glGetShaderInfoLog(shader, bufSize, NULL, buffer)` leaves in
`buffer`: at most `bufSize - 1` characters of the log, then the terminator. -/
def infoLogBuffer (bufSize : Nat) (log : List Char) : List Char :=
  log.take (bufSize - 1)

/-- Embedding of `compile_shader` (main.cpp lines 71-86). -/
def compile_shader (o : ShaderOutcome) (type : Nat) (source : String) :
    Nat × List Call :=
  let shader := o.handle
  let head := [ Call.glCreateShader type,
                Call.glShaderSource shader 1 source,
                Call.glCompileShader shader,
                Call.glGetShaderiv shader GL_COMPILE_STATUS ]
  if o.status ≠ GL_TRUE then
    (shader, head ++ [ Call.glGetShaderInfoLog shader 512,
                       Call.cerrWrite (infoLogBuffer 512 o.infoLog),
                       Call.cerrEndl ])
  else
    (shader, head)

/-! ## Program linker -/

/-- Embedding of `link_program` (main.cpp lines 88-98); `program` is what
`glCreateProgram` returns. -/
def link_program (program : Nat) (vertexShader fragShader : Nat) :
    Nat × List Call :=
  (program, [ .glCreateProgram,
              .glAttachShader program vertexShader,
              .glAttachShader program fragShader,
              .glBindFragDataLocation program 0 "outColor",
              .glLinkProgram program ])

/-! ## Frame loop -/

/-- What the outside world (window system, keyboard, clock) does during
one iteration of the loop. -/
structure FrameInput where
  /-- an OS close request is delivered to the window during `glfwPollEvents` -/
  closeSignal : Bool
  /-- the value `glfwGetKey(window, GLFW_KEY_ESCAPE)` returns -/
  escapeKey : Int
  /-- the value `glfwGetTime()` returns -/
  time : CDouble

/-- One execution of the loop body (main.cpp lines 134-147).  `shouldClose` is
the close flag of the window on entry; the result is the flag on exit and the
calls issued.  `glfwPollEvents` raises the flag when a close request arrives,
`glfwSetWindowShouldClose(window, GL_TRUE)` raises it too, nothing lowers it. -/
def frameBody (window : Nat) (timeLocation : Int) (inp : FrameInput)
    (shouldClose : Bool) : Bool × List Call :=
  let afterPoll := shouldClose || inp.closeSignal
  let poll := [ Call.glfwSwapBuffers window,
                Call.glfwPollEvents,
                Call.glfwGetKey window GLFW_KEY_ESCAPE ]
  let draw := [ Call.glClearColor (.fin 0) (.fin 0) (.fin 0) (.fin 1),
                Call.glClear GL_COLOR_BUFFER_BIT,
                Call.glfwGetTime,
                Call.glUniform1f timeLocation (narrow inp.time),
                Call.glDrawArrays GL_TRIANGLES 0 3 ]
  if inp.escapeKey = GLFW_PRESS then
    (true, poll ++ [Call.glfwSetWindowShouldClose window GL_TRUE] ++ draw)
  else
    (afterPoll, poll ++ draw)

/-- The loop `while(!glfwWindowShouldClose(window)) body` (lines 133-148),
run for at most `fuel` evaluations of its condition, starting with iteration
number `n`.  `none` means the loop is still running when the fuel is spent. -/
def frameLoop (window : Nat) (timeLocation : Int) (env : Nat → FrameInput) :
    Nat → Nat → Bool → Option (List Call)
  | 0, _, _ => none
  | fuel + 1, n, shouldClose =>
    if shouldClose then
      some [Call.glfwWindowShouldClose window]
    else
      (frameLoop window timeLocation env fuel (n + 1)
          (frameBody window timeLocation (env n) shouldClose).1).map
        (fun rest => Call.glfwWindowShouldClose window ::
          ((frameBody window timeLocation (env n) shouldClose).2 ++ rest))

/-! ## main -/

/-- What the libraries answer during the setup part of `main`. -/
structure Driver where
  /-- result of `glfwGetPrimaryMonitor` -/
  monitor : Nat
  /-- result of `glfwCreateWindow` (`0`, that is `NULL`, when creation fails) -/
  window : Nat
  /-- name stored by `glGenVertexArrays` -/
  vao : Nat
  /-- name stored by `glGenBuffers` -/
  vbo : Nat
  /-- answers to the compilation of the vertex stage -/
  vertex : ShaderOutcome
  /-- answers to the compilation of the fragment stage -/
  fragment : ShaderOutcome
  /-- result of `glCreateProgram` -/
  program : Nat
  /-- the link status of the program after `glLinkProgram` -/
  linkStatus : Int
  /-- result of `glGetAttribLocation(program, "position")` -/
  posAttrib : Int
  /-- result of `glGetAttribLocation(program, "color")` -/
  colorAttrib : Int
  /-- result of `glGetUniformLocation(program, "time")` -/
  timeLocation : Int

/-- Conversion of a `GLint` attribute location to the `GLuint` index
parameter of `glVertexAttribPointer` / `glEnableVertexAttribArray`. -/
def toGLuint (a : Int) : Nat := (a % 2 ^ 32).toNat

/-- A vertex attribute as given to `glVertexAttribPointer`: component count,
stride in bytes, offset in bytes. -/
structure AttribLayout where
  size : Nat
  stride : Nat
  offset : Nat

/-- Arguments of the `position` attribute (lines 122-123). -/
def posLayout : AttribLayout :=
  { size := 2, stride := 5 * sizeofFloat, offset := 0 }

/-- Arguments of the `color` attribute (lines 127-128). -/
def colorLayout : AttribLayout :=
  { size := 3, stride := 5 * sizeofFloat, offset := 2 * sizeofFloat }

/-- The calls of `main` before the loop (lines 101-131). -/
def setupCalls (d : Driver) : List Call :=
  init_glfw
  ++ (create_window d.monitor d.window 1920 1080 "OpenGL").2
  ++ init_glew
  ++ [ .glGenVertexArrays 1,
       .glBindVertexArray d.vao,
       .glGenBuffers 1,
       .glBindBuffer GL_ARRAY_BUFFER d.vbo,
       .glBufferData GL_ARRAY_BUFFER (vertices.length * sizeofFloat) vertices GL_STATIC_DRAW ]
  ++ (compile_shader d.vertex GL_VERTEX_SHADER vertexSource).2
  ++ (compile_shader d.fragment GL_FRAGMENT_SHADER fragSource).2
  ++ (link_program d.program
        (compile_shader d.vertex GL_VERTEX_SHADER vertexSource).1
        (compile_shader d.fragment GL_FRAGMENT_SHADER fragSource).1).2
  ++ [ .glUseProgram (link_program d.program
        (compile_shader d.vertex GL_VERTEX_SHADER vertexSource).1
        (compile_shader d.fragment GL_FRAGMENT_SHADER fragSource).1).1,
       .glGetAttribLocation d.program "position",
       .glVertexAttribPointer (toGLuint d.posAttrib) posLayout.size GL_FLOAT GL_FALSE
          posLayout.stride posLayout.offset,
       .glEnableVertexAttribArray (toGLuint d.posAttrib),
       .glGetAttribLocation d.program "color",
       .glVertexAttribPointer (toGLuint d.colorAttrib) colorLayout.size GL_FLOAT GL_FALSE
          colorLayout.stride colorLayout.offset,
       .glEnableVertexAttribArray (toGLuint d.colorAttrib),
       .glGetUniformLocation d.program "time" ]

/-- The calls of `main` after the loop (lines 150-156). -/
def teardownCalls (d : Driver) : List Call :=
  [ .glDeleteProgram d.program,
    .glDeleteShader d.fragment.handle,
    .glDeleteShader d.vertex.handle,
    .glDeleteBuffers 1 d.vbo,
    .glDeleteVertexArrays 1 d.vao,
    .glfwTerminate ]

/-- A finished run of the process: every library call, in order, and the
value `main` returns. -/
structure Run where
  trace : List Call
  exitCode : Int

/-- Embedding of `main` (lines 100-157).  A freshly created window has its
close flag lowered, so the loop starts with `shouldClose = false`.  `main` has
no `return` statement; falling off its end returns `0`. -/
def main (d : Driver) (env : Nat → FrameInput) (fuel : Nat) : Option Run :=
  (frameLoop (create_window d.monitor d.window 1920 1080 "OpenGL").1 d.timeLocation
      env fuel 0 false).map
    (fun loop => { trace := setupCalls d ++ loop ++ teardownCalls d, exitCode := 0 })

/-! ## Observations on traces -/

/-- The characters one call puts on `std::cerr`. -/
def stderrOf : Call → List Char
  | .cerrWrite text => text
  | .cerrEndl => ['\n']
  | _ => []

/-- The characters a trace puts on `std::cerr`. -/
def stderrText (trace : List Call) : List Char :=
  trace.flatMap stderrOf

/-- Calls that end the process abnormally. -/
def isProcessFailure : Call → Bool
  | .exit _ => true
  | .abort => true
  | _ => false

def isInfoLogQuery : Call → Bool
  | .glGetShaderInfoLog _ _ => true
  | _ => false

def isCerrWrite : Call → Bool
  | .cerrWrite _ => true
  | _ => false

def isCreateProgram : Call → Bool
  | .glCreateProgram => true
  | _ => false

def isLink : Call → Bool
  | .glLinkProgram _ => true
  | _ => false

/-- A query of the link status: `glGetProgramiv(.., GL_LINK_STATUS, ..)`. -/
def isLinkStatusQuery : Call → Bool
  | .glGetProgramiv _ pname => pname == GL_LINK_STATUS
  | _ => false

def attachmentOf : Call → Option (Nat × Nat)
  | .glAttachShader p s => some (p, s)
  | _ => none

/-- The shaders attached by a trace, in order, each with its program. -/
def attachments (trace : List Call) : List (Nat × Nat) :=
  trace.filterMap attachmentOf

def messageOf : Call → Option (List Char)
  | .cerrWrite text => some text
  | _ => none

/-- The texts handed to `std::cerr <<`, one per write, in order. -/
def diagnosticMessages (trace : List Call) : List (List Char) :=
  trace.filterMap messageOf

/-- Float index (counted from the start of the buffer) of each component
that attribute `a` reads for vertex number `i`: component `j` lives at byte
`i * stride + offset + j * sizeof(float)`. -/
def attribFloats (a : AttribLayout) (i : Nat) : List Nat :=
  (List.range a.size).map
    (fun j => (i * a.stride + a.offset + j * sizeofFloat) / sizeofFloat)

/-- The vertex numbers one call makes the pipeline read: `glDrawArrays`
reads `first, .., first + count - 1`. -/
def verticesOf : Call → List Nat
  | .glDrawArrays _ first count => (List.range count).map (fun i => first + i)
  | _ => []

/-- The vertex numbers read by the non-indexed draws of a trace. -/
def drawnVertices (trace : List Call) : List Nat :=
  trace.flatMap verticesOf

def layoutOf : Call → Option AttribLayout
  | .glVertexAttribPointer _ size _ _ stride offset =>
      some { size := size, stride := stride, offset := offset }
  | _ => none

/-- The attribute layouts a trace configures, in order. -/
def configuredLayouts (trace : List Call) : List AttribLayout :=
  trace.filterMap layoutOf

/-- The exit condition of one iteration: a close request arrived during the
poll, or the Escape key is observed as pressed. -/
def closing (inp : FrameInput) : Bool :=
  inp.closeSignal || decide (inp.escapeKey = GLFW_PRESS)

/-- One trip round the loop that passes the condition: the test
`glfwWindowShouldClose(window)` (answering false) and then the body. -/
def iteration (window : Nat) (timeLocation : Int) (inp : FrameInput) : List Call :=
  Call.glfwWindowShouldClose window :: (frameBody window timeLocation inp false).2

/-- The calls of iterations `n, n+1, .., n+k-1` one after the other. -/
def iterations (window : Nat) (timeLocation : Int) (env : Nat → FrameInput)
    (n : Nat) : Nat → List Call
  | 0 => []
  | k + 1 => iteration window timeLocation (env n) ++
      iterations window timeLocation env (n + 1) k

/-- The three calls that open the body: present, poll, read the key. -/
def pollCalls (window : Nat) : List Call :=
  [ Call.glfwSwapBuffers window, Call.glfwPollEvents,
    Call.glfwGetKey window GLFW_KEY_ESCAPE ]

/-- The five calls that close the body: clear, read the clock, send the
uniform, draw. -/
def drawCalls (timeLocation : Int) (t : CDouble) : List Call :=
  [ Call.glClearColor (.fin 0) (.fin 0) (.fin 0) (.fin 1),
    Call.glClear GL_COLOR_BUFFER_BIT,
    Call.glfwGetTime,
    Call.glUniform1f timeLocation (narrow t),
    Call.glDrawArrays GL_TRIANGLES 0 3 ]

def isShouldCloseTest : Call → Bool
  | .glfwWindowShouldClose _ => true
  | _ => false

def isSwap : Call → Bool
  | .glfwSwapBuffers _ => true
  | _ => false

def isPoll : Call → Bool
  | .glfwPollEvents => true
  | _ => false

def isEscapeKeyRead : Call → Bool
  | .glfwGetKey _ key => key == GLFW_KEY_ESCAPE
  | _ => false

def isSetShouldClose : Call → Bool
  | .glfwSetWindowShouldClose _ _ => true
  | _ => false

def isColorClear : Call → Bool
  | .glClear mask => mask == GL_COLOR_BUFFER_BIT
  | _ => false

def isGetTime : Call → Bool
  | .glfwGetTime => true
  | _ => false

def isUniform1f : Call → Bool
  | .glUniform1f _ _ => true
  | _ => false

/-- A non-indexed draw: `glDrawArrays`. -/
def isArrayDraw : Call → Bool
  | .glDrawArrays _ _ _ => true
  | _ => false

/-- An indexed draw: `glDrawElements`, which takes vertex numbers from an
element array. -/
def isIndexedDraw : Call → Bool
  | .glDrawElements _ _ _ _ => true
  | _ => false

/-- The calls of the teardown: the five deletions and `glfwTerminate`. -/
def isTeardownCall : Call → Bool
  | .glDeleteProgram _ => true
  | .glDeleteShader _ => true
  | .glDeleteBuffers _ _ => true
  | .glDeleteVertexArrays _ _ => true
  | .glfwTerminate => true
  | _ => false

/-- Calls that create or change the data store of a buffer object. -/
def writesBufferStore : Call → Bool
  | .glBufferData _ _ _ _ => true
  | .glBufferSubData _ _ _ _ => true
  | _ => false

/-- Calls that change which buffer is bound or a buffer's existence. -/
def rebindsBuffer : Call → Bool
  | .glBindBuffer _ _ => true
  | .glGenBuffers _ => true
  | .glDeleteBuffers _ _ => true
  | _ => false

/-- Calls that change vertex-array state. -/
def writesVertexArray : Call → Bool
  | .glGenVertexArrays _ => true
  | .glBindVertexArray _ => true
  | .glVertexAttribPointer _ _ _ _ _ _ => true
  | .glEnableVertexAttribArray _ => true
  | .glDeleteVertexArrays _ _ => true
  | _ => false

def uniformOf : Call → Option (Int × GLfloat)
  | .glUniform1f loc v => some (loc, v)
  | _ => none

/-- The values sent with `glUniform1f`, each with its location, in order. -/
def timeUniforms (trace : List Call) : List (Int × GLfloat) :=
  trace.filterMap uniformOf

/-- Effect of one call on the data store of the buffer bound to
`GL_ARRAY_BUFFER` (`none`: no store yet, or deleted): `glBufferData` replaces
the store, `glBufferSubData` overwrites a range of it, `glDeleteBuffers`
removes it, every other call leaves it alone. -/
def stepStore (store : Option (List GLfloat)) : Call → Option (List GLfloat)
  | .glBufferData _ _ data _ => some data
  | .glBufferSubData _ offset _ data =>
      store.map (fun old =>
        old.take (offset / sizeofFloat) ++ data ++
          old.drop (offset / sizeofFloat + data.length))
  | .glDeleteBuffers _ _ => none
  | _ => store

/-- The data store after a trace, starting from no store. -/
def bufferStore (trace : List Call) : Option (List GLfloat) :=
  trace.foldl stepStore none

/-! ## Library behaviour the source does not determine -/

/-- What the libraries do beyond the answers collected in `Driver`. -/
structure Library where
  /-- the close flag of the window when the loop is first reached, that is
  the answer of the first `glfwWindowShouldClose(window)` -/
  flagAtEntry : Bool
  /-- whether a call comes back to the program; `false`: the process dies
  inside the call -/
  returns : Call → Bool

/-- A run of the process: the calls issued and how it ended. -/
structure ProcessRun where
  trace : List Call
  /-- `some c`: `main` returned `c`; `none`: the process died inside a
  library call -/
  exitCode : Option Int

/-- The calls issued when the process dies inside the first call of the list
that does not return; `none` when every call of the list returns. -/
def diesIn (returns : Call → Bool) : List Call → Option (List Call)
  | [] => none
  | c :: rest =>
    if returns c then (diesIn returns rest).map (fun issued => c :: issued)
    else some [c]

/-- The loop of lines 133-148 with calls that may not return.  The result
holds the calls issued and whether the loop ended (`true`) or the process died
inside a call (`false`); `none` means the loop is still running when the fuel
is spent. -/
def frameLoopWith (returns : Call → Bool) (window : Nat) (timeLocation : Int)
    (env : Nat → FrameInput) : Nat → Nat → Bool → Option (List Call × Bool)
  | 0, _, _ => none
  | fuel + 1, n, shouldClose =>
    if returns (Call.glfwWindowShouldClose window) = false then
      some ([Call.glfwWindowShouldClose window], false)
    else if shouldClose then
      some ([Call.glfwWindowShouldClose window], true)
    else
      match diesIn returns (frameBody window timeLocation (env n) shouldClose).2 with
      | some issued => some (Call.glfwWindowShouldClose window :: issued, false)
      | none =>
        (frameLoopWith returns window timeLocation env fuel (n + 1)
            (frameBody window timeLocation (env n) shouldClose).1).map
          (fun rest => (Call.glfwWindowShouldClose window ::
            ((frameBody window timeLocation (env n) shouldClose).2 ++ rest.1), rest.2))

/-- Embedding of `main` (lines 100-157) over a library that decides the close
flag at loop entry and which calls return.  `main` returns 0 by falling off
its end; a process that dies inside a call has no exit code of its own. -/
def mainWith (lib : Library) (d : Driver) (env : Nat → FrameInput) (fuel : Nat) :
    Option ProcessRun :=
  match diesIn lib.returns (setupCalls d) with
  | some issued => some { trace := issued, exitCode := none }
  | none =>
    match frameLoopWith lib.returns
        (create_window d.monitor d.window 1920 1080 "OpenGL").1 d.timeLocation
        env fuel 0 lib.flagAtEntry with
    | none => none
    | some (loop, false) => some { trace := setupCalls d ++ loop, exitCode := none }
    | some (loop, true) =>
      match diesIn lib.returns (teardownCalls d) with
      | some issued => some { trace := setupCalls d ++ loop ++ issued, exitCode := none }
      | none =>
        some { trace := setupCalls d ++ loop ++ teardownCalls d, exitCode := some 0 }

/-- A library in which `glGenVertexArrays` does not return (an entry point
that was never loaded). -/
def unloadedLibrary : Library :=
  { flagAtEntry := false,
    returns := fun c => match c with
      | .glGenVertexArrays _ => false
      | _ => true }

/-! ## Sample runs -/

/-- A driver on which window creation, both compilations and the link
succeed. -/
def sampleDriver : Driver :=
  { monitor := 1, window := 1, vao := 1, vbo := 1,
    vertex := { handle := 1, status := 1, infoLog := [] },
    fragment := { handle := 2, status := 1, infoLog := [] },
    program := 3, linkStatus := 1, posAttrib := 0, colorAttrib := 1, timeLocation := 0 }

/-- A driver on which everything fails: no window, no shader objects, failed
compilations with a one-line log, failed link, no attribute or uniform found. -/
def failingDriver : Driver :=
  { monitor := 0, window := 0, vao := 0, vbo := 0,
    vertex := { handle := 0, status := 0, infoLog := "error".toList },
    fragment := { handle := 0, status := 0, infoLog := "error".toList },
    program := 0, linkStatus := 0, posAttrib := -1, colorAttrib := -1, timeLocation := -1 }

/-- Sixty frames a second; the Escape key is down during the third iteration. -/
def escapeInThird (i : Nat) : FrameInput :=
  { closeSignal := false,
    escapeKey := if i = 2 then GLFW_PRESS else GLFW_RELEASE,
    time := (i : ℚ) / 60 }

/-- Sixty frames a second; the OS asks to close the window during the poll of
the third iteration. -/
def closeInThird (i : Nat) : FrameInput :=
  { closeSignal := decide (i = 2),
    escapeKey := GLFW_RELEASE,
    time := (i : ℚ) / 60 }

/-! # Theorems -/

/-! ## Rounding to binary32 -/

theorem roundNE_bounds (x : ℚ) : ⌊x⌋ ≤ roundNE x ∧ roundNE x ≤ ⌊x⌋ + 1 := by
  unfold roundNE
  split_ifs <;> constructor <;> omega

theorem roundNE_ge_int (x : ℚ) (n : ℤ) (h : (n : ℚ) ≤ x) : n ≤ roundNE x :=
  le_trans (Int.le_floor.mpr h) (roundNE_bounds x).1

theorem roundNE_le_int (x : ℚ) (n : ℤ) (h : x ≤ (n : ℚ)) : roundNE x ≤ n := by
  have hfl : ⌊x⌋ ≤ n := by
    have := Int.floor_mono h
    simpa using this
  rcases lt_or_eq_of_le hfl with hlt | heq
  · have := (roundNE_bounds x).2
    omega
  · have hx : x = (⌊x⌋ : ℚ) := by
      apply le_antisymm
      · rw [heq]; exact h
      · exact Int.floor_le x
    unfold roundNE
    have h0 : x - (⌊x⌋ : ℚ) = 0 := by linarith
    rw [h0]
    norm_num
    exact hfl

theorem roundNE_mono (x y : ℚ) (h : x ≤ y) : roundNE x ≤ roundNE y := by
  have hfl : ⌊x⌋ ≤ ⌊y⌋ := Int.floor_mono h
  rcases lt_or_eq_of_le hfl with hlt | heq
  · have h1 := (roundNE_bounds x).2
    have h2 := (roundNE_bounds y).1
    omega
  · unfold roundNE
    rw [heq]
    have hxy : x - (⌊y⌋ : ℚ) ≤ y - (⌊y⌋ : ℚ) := by linarith
    split_ifs <;> first | omega | (exfalso; linarith)

theorem f32Ulp_pos (x : ℚ) : 0 < f32Ulp x := by
  unfold f32Ulp
  positivity

theorem f32RoundMag_nonneg (x : ℚ) (hx : 0 ≤ x) : 0 ≤ f32RoundMag x := by
  unfold f32RoundMag
  have hu := f32Ulp_pos x
  have hq : ((0 : ℤ) : ℚ) ≤ x / f32Ulp x := by
    simpa using div_nonneg hx hu.le
  have := roundNE_ge_int _ 0 hq
  have h2 : (0 : ℚ) ≤ (roundNE (x / f32Ulp x) : ℚ) := by exact_mod_cast this
  exact mul_nonneg h2 hu.le

/-- A rounded magnitude does not exceed the next power of two. -/
theorem f32RoundMag_le_pow (x : ℚ) : f32RoundMag x ≤ (2 : ℚ) ^ (f32Exp x + 1) := by
  unfold f32RoundMag
  have hu := f32Ulp_pos x
  have hx : x < (2 : ℚ) ^ (f32Exp x + 1) := by
    have h1 : x < ((2 : ℕ) : ℚ) ^ (Int.log 2 x + 1) := Int.lt_zpow_succ_log_self (by norm_num) x
    have h2 : ((2 : ℕ) : ℚ) ^ (Int.log 2 x + 1) ≤ (2 : ℚ) ^ (f32Exp x + 1) := by
      push_cast
      apply zpow_le_zpow_right₀ (by norm_num)
      unfold f32Exp
      have := le_max_left (Int.log 2 x) (-126)
      omega
    exact lt_of_lt_of_le h1 h2
  have hsplit : (2 : ℚ) ^ (f32Exp x + 1) = ((2 ^ 24 : ℤ) : ℚ) * f32Ulp x := by
    unfold f32Ulp
    have : f32Exp x + 1 = 24 + (f32Exp x - 23) := by ring
    rw [this, zpow_add₀ (by norm_num)]
    norm_num
  have hq : x / f32Ulp x ≤ ((2 ^ 24 : ℤ) : ℚ) := by
    rw [div_le_iff₀ hu, ← hsplit]
    exact hx.le
  have hr := roundNE_le_int _ _ hq
  have hr2 : (roundNE (x / f32Ulp x) : ℚ) ≤ ((2 ^ 24 : ℤ) : ℚ) := by exact_mod_cast hr
  rw [hsplit]
  exact mul_le_mul_of_nonneg_right hr2 hu.le

/-- A rounded normal magnitude is at least the power of two below it. -/
theorem pow_le_f32RoundMag (x : ℚ) (hx : 0 < x) (hn : f32Exp x = Int.log 2 x) :
    (2 : ℚ) ^ (f32Exp x) ≤ f32RoundMag x := by
  unfold f32RoundMag
  have hu := f32Ulp_pos x
  have hlow : (2 : ℚ) ^ (f32Exp x) ≤ x := by
    rw [hn]
    have := Int.zpow_log_le_self (b := 2) (r := x) (by norm_num) hx
    simpa using this
  have hsplit : (2 : ℚ) ^ (f32Exp x) = ((2 ^ 23 : ℤ) : ℚ) * f32Ulp x := by
    unfold f32Ulp
    have : f32Exp x = 23 + (f32Exp x - 23) := by ring
    conv_lhs => rw [this]
    rw [zpow_add₀ (by norm_num)]
    norm_num
  have hq : ((2 ^ 23 : ℤ) : ℚ) ≤ x / f32Ulp x := by
    rw [le_div_iff₀ hu, ← hsplit]
    exact hlow
  have hr := roundNE_ge_int _ _ hq
  have hr2 : ((2 ^ 23 : ℤ) : ℚ) ≤ (roundNE (x / f32Ulp x) : ℚ) := by exact_mod_cast hr
  rw [hsplit]
  exact mul_le_mul_of_nonneg_right hr2 hu.le

theorem f32Exp_mono (x y : ℚ) (hx : 0 < x) (h : x ≤ y) : f32Exp x ≤ f32Exp y := by
  unfold f32Exp
  exact max_le_max (Int.log_mono_right hx h) (le_refl _)

/-- Rounding of magnitudes is monotone. -/
theorem f32RoundMag_mono (x y : ℚ) (hx : 0 ≤ x) (h : x ≤ y) :
    f32RoundMag x ≤ f32RoundMag y := by
  rcases eq_or_lt_of_le hx with h0 | hpos
  · have hz : f32RoundMag x = 0 := by
      rw [← h0]
      simp [f32RoundMag, roundNE]
    rw [hz]
    exact f32RoundMag_nonneg y (le_trans hx h)
  · have he := f32Exp_mono x y hpos h
    rcases eq_or_lt_of_le he with heq | hlt
    · have hu : f32Ulp x = f32Ulp y := by unfold f32Ulp; rw [heq]
      unfold f32RoundMag
      rw [hu]
      have hup := f32Ulp_pos y
      have hq : x / f32Ulp y ≤ y / f32Ulp y := div_le_div_of_nonneg_right h hup.le
      have hr := roundNE_mono _ _ hq
      have hr2 : (roundNE (x / f32Ulp y) : ℚ) ≤ (roundNE (y / f32Ulp y) : ℚ) := by
        exact_mod_cast hr
      exact mul_le_mul_of_nonneg_right hr2 hup.le
    · have hn : f32Exp y = Int.log 2 y := by
        unfold f32Exp at hlt ⊢
        have h126 : (-126 : ℤ) ≤ max (Int.log 2 x) (-126) := le_max_right _ _
        rcases max_cases (Int.log 2 y) (-126) with ⟨hm, _⟩ | ⟨hm, _⟩
        · exact hm
        · rw [hm] at hlt; omega
      calc f32RoundMag x ≤ (2 : ℚ) ^ (f32Exp x + 1) := f32RoundMag_le_pow x
        _ ≤ (2 : ℚ) ^ (f32Exp y) := zpow_le_zpow_right₀ (by norm_num) (by omega)
        _ ≤ f32RoundMag y := pow_le_f32RoundMag y (lt_of_lt_of_le hpos h) hn

/-- The conversion `double → float` is monotone. -/
theorem narrow_mono (s t : CDouble) (h : s ≤ t) : (narrow s).leb (narrow t) = true := by
  unfold narrow
  by_cases hs : 0 ≤ s
  · have ht : 0 ≤ t := le_trans hs h
    have hm := f32RoundMag_mono s t hs h
    simp only [hs, ht, if_true]
    split_ifs with h1 h2 h2
    · simpa [GLfloat.leb] using hm
    · rfl
    · exact absurd (lt_of_le_of_lt hm h2) h1
    · rfl
  · by_cases ht : 0 ≤ t
    · simp only [hs, ht, if_true, if_false]
      have hms := f32RoundMag_nonneg (-s) (by linarith)
      have hmt := f32RoundMag_nonneg t ht
      split_ifs
      · simp only [GLfloat.leb, decide_eq_true_eq]; linarith
      · rfl
      · rfl
      · rfl
    · simp only [hs, ht, if_false]
      have hm := f32RoundMag_mono (-t) (-s) (by linarith) (by linarith)
      split_ifs with h1 h2 h2
      · simp only [GLfloat.leb, decide_eq_true_eq]; linarith
      · exact absurd (lt_of_le_of_lt hm h1) h2
      · rfl
      · rfl

/-! ## Shape of the loop -/

theorem frameBody_calls (w : Nat) (loc : Int) (inp : FrameInput) (sc : Bool) :
    (frameBody w loc inp sc).2 =
      pollCalls w
      ++ (if inp.escapeKey = GLFW_PRESS then [Call.glfwSetWindowShouldClose w GL_TRUE] else [])
      ++ drawCalls loc inp.time := by
  unfold frameBody pollCalls drawCalls
  by_cases h : inp.escapeKey = GLFW_PRESS <;> simp [h]

theorem frameBody_flag (w : Nat) (loc : Int) (inp : FrameInput) :
    (frameBody w loc inp false).1 = closing inp := by
  unfold frameBody closing
  by_cases h : inp.escapeKey = GLFW_PRESS <;> simp [h]

theorem iteration_calls (w : Nat) (loc : Int) (inp : FrameInput) :
    iteration w loc inp =
      Call.glfwWindowShouldClose w :: (pollCalls w
      ++ (if inp.escapeKey = GLFW_PRESS then [Call.glfwSetWindowShouldClose w GL_TRUE] else [])
      ++ drawCalls loc inp.time) := by
  unfold iteration
  rw [frameBody_calls]

theorem iterations_succ_last (w : Nat) (loc : Int) (env : Nat → FrameInput) :
    ∀ (k n : Nat), iterations w loc env n (k + 1) =
      iterations w loc env n k ++ iteration w loc (env (n + k)) := by
  intro k
  induction k with
  | zero => intro n; simp [iterations]
  | succ k ih =>
    intro n
    rw [iterations, ih (n + 1), iterations, List.append_assoc]
    have : n + 1 + k = n + (k + 1) := by omega
    rw [this]

/-- With the flag raised on entry the loop tests its condition once and ends. -/
theorem frameLoop_raised (w : Nat) (loc : Int) (env : Nat → FrameInput) (fuel n : Nat) :
    frameLoop w loc env (fuel + 1) n true = some [Call.glfwWindowShouldClose w] := by
  simp [frameLoop]

/-- Enough fuel gives the result: when the exit condition first holds in
iteration `n + k`, the loop performs iterations `n .. n + k`, tests its
condition once more and ends. -/
theorem frameLoop_run (w : Nat) (loc : Int) (env : Nat → FrameInput) :
    ∀ (k n fuel : Nat), (∀ j, j < k → closing (env (n + j)) = false) →
      closing (env (n + k)) = true → k + 2 ≤ fuel →
      frameLoop w loc env fuel n false =
        some (iterations w loc env n (k + 1) ++ [Call.glfwWindowShouldClose w]) := by
  intro k
  induction k with
  | zero =>
    intro n fuel _ hk hf
    obtain ⟨f, rfl⟩ : ∃ f, fuel = f + 2 := ⟨fuel - 2, by omega⟩
    have hk0 : closing (env n) = true := by simpa using hk
    simp [frameLoop, frameBody_flag, hk0, iterations, iteration]
  | succ k ih =>
    intro n fuel hbefore hk hf
    obtain ⟨f, rfl⟩ : ∃ f, fuel = f + 1 := ⟨fuel - 1, by omega⟩
    have h0 : closing (env n) = false := by simpa using hbefore 0 (by omega)
    have hrec := ih (n + 1) f
      (fun j hj => by
        have := hbefore (j + 1) (by omega)
        rwa [show n + (j + 1) = n + 1 + j by omega] at this)
      (by rwa [show n + (k + 1) = n + 1 + k by omega] at hk)
      (by omega)
    rw [frameLoop]
    simp only [Bool.false_eq_true, if_false, frameBody_flag, h0, hrec, Option.map_some]
    conv_rhs => rw [iterations]
    simp [iteration]

/-- Every finished loop has the shape of `frameLoop_run`. -/
theorem frameLoop_some (w : Nat) (loc : Int) (env : Nat → FrameInput) :
    ∀ (fuel n : Nat) (t : List Call), frameLoop w loc env fuel n false = some t →
      ∃ k, k + 2 ≤ fuel ∧ (∀ j, j < k → closing (env (n + j)) = false) ∧
        closing (env (n + k)) = true ∧
        t = iterations w loc env n (k + 1) ++ [Call.glfwWindowShouldClose w] := by
  intro fuel
  induction fuel with
  | zero => intro n t h; simp [frameLoop] at h
  | succ f ih =>
    intro n t h
    rw [frameLoop] at h
    simp only [Bool.false_eq_true, if_false, frameBody_flag] at h
    cases hc : closing (env n) with
    | true =>
      rw [hc] at h
      cases f with
      | zero => simp [frameLoop] at h
      | succ f2 =>
        rw [frameLoop_raised] at h
        simp only [Option.map, Option.some.injEq] at h
        refine ⟨0, by omega, fun j hj => by omega, by simpa using hc, ?_⟩
        rw [← h]
        simp [iterations, iteration]
    | false =>
      rw [hc] at h
      cases hr : frameLoop w loc env f (n + 1) false with
      | none => rw [hr] at h; simp at h
      | some rest =>
        rw [hr] at h
        simp only [Option.map, Option.some.injEq] at h
        obtain ⟨k, hk1, hk2, hk3, hk4⟩ := ih (n + 1) rest hr
        refine ⟨k + 1, by omega, ?_, ?_, ?_⟩
        · intro j hj
          cases j with
          | zero => simpa using hc
          | succ j =>
            have := hk2 j (by omega)
            rwa [show n + 1 + j = n + (j + 1) by omega] at this
        · rwa [show n + 1 + k = n + (k + 1) by omega] at hk3
        · rw [← h, hk4]
          conv_rhs => rw [iterations]
          simp [iteration]

theorem iterations_countP (p : Call → Bool) (c : Nat) (w : Nat) (loc : Int)
    (env : Nat → FrameInput) (h : ∀ inp, (iteration w loc inp).countP p = c) :
    ∀ (m n : Nat), (iterations w loc env n m).countP p = m * c := by
  intro m
  induction m with
  | zero => intro n; simp [iterations]
  | succ m ih =>
    intro n
    rw [iterations, List.countP_append, h, ih]
    ring

theorem iterations_filter_nil (p : Call → Bool) (w : Nat) (loc : Int)
    (env : Nat → FrameInput) (h : ∀ inp, (iteration w loc inp).filter p = []) :
    ∀ (m n : Nat), (iterations w loc env n m).filter p = [] := by
  intro m
  induction m with
  | zero => intro n; simp [iterations]
  | succ m ih =>
    intro n
    rw [iterations, List.filter_append, h, ih]
    rfl

/-- The setup issues none of the loop's or the teardown's calls. -/
theorem setupCalls_counts (d : Driver) :
    (setupCalls d).filter isTeardownCall = []
    ∧ (setupCalls d).countP isSwap = 0
    ∧ (setupCalls d).countP isShouldCloseTest = 0
    ∧ (setupCalls d).filter isSetShouldClose = []
    ∧ (setupCalls d).countP isLink = 1
    ∧ (setupCalls d).any isProcessFailure = false
    ∧ timeUniforms (setupCalls d) = []
    ∧ (setupCalls d).countP isGetTime = 0 := by
  by_cases h1 : d.vertex.status = GL_TRUE <;> by_cases h2 : d.fragment.status = GL_TRUE <;>
    simp [setupCalls, compile_shader, h1, h2, init_glfw, init_glew, create_window,
      link_program, isTeardownCall, isSwap, isShouldCloseTest, isSetShouldClose, isLink,
      isProcessFailure, timeUniforms, uniformOf, isGetTime, List.filter]

/-- One iteration holds one swap, one clock read, one uniform and none of the
teardown's calls. -/
theorem iteration_counts (w : Nat) (loc : Int) (inp : FrameInput) :
    (iteration w loc inp).filter isTeardownCall = []
    ∧ (iteration w loc inp).countP isShouldCloseTest = 1
    ∧ (iteration w loc inp).countP isSwap = 1
    ∧ (iteration w loc inp).countP isPoll = 1
    ∧ (iteration w loc inp).countP isEscapeKeyRead = 1
    ∧ (iteration w loc inp).countP isColorClear = 1
    ∧ (iteration w loc inp).countP isGetTime = 1
    ∧ (iteration w loc inp).countP isUniform1f = 1
    ∧ (iteration w loc inp).countP isArrayDraw = 1
    ∧ (iteration w loc inp).any isIndexedDraw = false
    ∧ (iteration w loc inp).any isProcessFailure = false
    ∧ timeUniforms (iteration w loc inp) = [(loc, narrow inp.time)] := by
  rw [iteration_calls]
  by_cases h : inp.escapeKey = GLFW_PRESS <;>
    simp [h, pollCalls, drawCalls, isTeardownCall, isShouldCloseTest, isSwap, isPoll,
      isEscapeKeyRead, isColorClear, isGetTime, isUniform1f, isArrayDraw, isIndexedDraw,
      isProcessFailure, timeUniforms, uniformOf, List.filter]

theorem teardownCalls_counts (d : Driver) :
    (teardownCalls d).filter isTeardownCall = teardownCalls d
    ∧ (teardownCalls d).countP isSwap = 0
    ∧ (teardownCalls d).countP isShouldCloseTest = 0
    ∧ (teardownCalls d).filter isSetShouldClose = []
    ∧ (teardownCalls d).any isProcessFailure = false
    ∧ timeUniforms (teardownCalls d) = []
    ∧ (teardownCalls d).countP isGetTime = 0 := by
  simp [teardownCalls, isTeardownCall, isSwap, isShouldCloseTest, isSetShouldClose,
    isProcessFailure, timeUniforms, uniformOf, isGetTime, List.filter]

/-- The result of `main` once the loop has been shown to end. -/
theorem main_run (d : Driver) (env : Nat → FrameInput) (k fuel : Nat)
    (hrun : ∀ j, j < k → closing (env j) = false) (hk : closing (env k) = true)
    (hfuel : k + 2 ≤ fuel) :
    main d env fuel = some
      { trace := setupCalls d
          ++ (iterations d.window d.timeLocation env 0 k
              ++ iteration d.window d.timeLocation (env k)
              ++ [Call.glfwWindowShouldClose d.window])
          ++ teardownCalls d,
        exitCode := 0 } := by
  have h := frameLoop_run d.window d.timeLocation env k 0 fuel
    (fun j hj => by simpa using hrun j hj) (by simpa using hk) hfuel
  rw [iterations_succ_last] at h
  simp only [Nat.zero_add] at h
  simp [main, create_window, h]

theorem setupCalls_store (d : Driver) :
    bufferStore (setupCalls d) = some vertices
    ∧ (setupCalls d).filter writesBufferStore =
        [Call.glBufferData GL_ARRAY_BUFFER (vertices.length * sizeofFloat) vertices
          GL_STATIC_DRAW] := by
  by_cases h1 : d.vertex.status = GL_TRUE <;> by_cases h2 : d.fragment.status = GL_TRUE <;>
    simp [setupCalls, compile_shader, h1, h2, init_glfw, init_glew, create_window,
      link_program, bufferStore, stepStore, writesBufferStore, List.filter]

theorem iteration_store (w : Nat) (loc : Int) (inp : FrameInput)
    (store : Option (List GLfloat)) :
    (iteration w loc inp).foldl stepStore store = store
    ∧ (iteration w loc inp).filter writesBufferStore = []
    ∧ (iteration w loc inp).filter rebindsBuffer = []
    ∧ (iteration w loc inp).filter writesVertexArray = [] := by
  rw [iteration_calls]
  by_cases h : inp.escapeKey = GLFW_PRESS <;>
    simp [h, pollCalls, drawCalls, stepStore, writesBufferStore, rebindsBuffer,
      writesVertexArray, List.filter]

theorem iterations_store (w : Nat) (loc : Int) (env : Nat → FrameInput)
    (store : Option (List GLfloat)) :
    ∀ (m n : Nat), (iterations w loc env n m).foldl stepStore store = store := by
  intro m
  induction m with
  | zero => intro n; simp [iterations]
  | succ m ih =>
    intro n
    rw [iterations, List.foldl_append, (iteration_store w loc (env n) store).1, ih]

/-- Every finished run of `main` is setup, some iterations, the final test of
the loop condition, teardown, with exit code 0. -/
theorem main_some (d : Driver) (env : Nat → FrameInput) (fuel : Nat) (r : Run)
    (hr : main d env fuel = some r) :
    ∃ k, k + 2 ≤ fuel ∧ (∀ j, j < k → closing (env j) = false) ∧ closing (env k) = true
      ∧ r = { trace := setupCalls d
                ++ (iterations d.window d.timeLocation env 0 (k + 1)
                    ++ [Call.glfwWindowShouldClose d.window])
                ++ teardownCalls d,
              exitCode := 0 } := by
  unfold main at hr
  cases hl : frameLoop (create_window d.monitor d.window 1920 1080 "OpenGL").1
      d.timeLocation env fuel 0 false with
  | none => rw [hl] at hr; simp at hr
  | some t =>
    rw [hl] at hr
    simp only [Option.map, Option.some.injEq] at hr
    obtain ⟨k, hk1, hk2, hk3, hk4⟩ := frameLoop_some _ _ _ _ _ _ hl
    refine ⟨k, hk1, fun j hj => by simpa using hk2 j hj, by simpa using hk3, ?_⟩
    rw [← hr, hk4]
    rfl

theorem iterations_timeUniforms (w : Nat) (loc : Int) (env : Nat → FrameInput) :
    ∀ (m : Nat), timeUniforms (iterations w loc env 0 m) =
      (List.range m).map (fun i => (loc, narrow (env i).time)) := by
  intro m
  induction m with
  | zero => simp [iterations, timeUniforms]
  | succ m ih =>
    rw [iterations_succ_last, List.range_succ, List.map_append]
    unfold timeUniforms at ih ⊢
    rw [List.filterMap_append, ih]
    have := (iteration_counts w loc (env (0 + m))).2.2.2.2.2.2.2.2.2.2.2
    unfold timeUniforms at this
    rw [this]
    simp

/-- The entries `N` and `N + 1` of the list of narrowed readings are in
order when the readings are. -/
theorem narrowed_readings_ordered (loc : Int) (env : Nat → FrameInput)
    (hmono : ∀ i, (env i).time ≤ (env (i + 1)).time) (m N : Nat) (a b : Int × GLfloat)
    (ha : ((List.range m).map (fun i => (loc, narrow (env i).time)))[N]? = some a)
    (hb : ((List.range m).map (fun i => (loc, narrow (env i).time)))[N + 1]? = some b) :
    a.2.leb b.2 = true := by
  rw [List.getElem?_map] at ha hb
  cases hra : (List.range m)[N]? with
  | none => rw [hra] at ha; simp at ha
  | some i =>
    cases hrb : (List.range m)[N + 1]? with
    | none => rw [hrb] at hb; simp at hb
    | some j =>
      rw [hra] at ha
      rw [hrb] at hb
      simp only [Option.map_some', Option.some.injEq] at ha hb
      have hi : i = N := by
        rw [List.getElem?_eq_some_iff] at hra
        obtain ⟨_, h⟩ := hra
        simpa using h.symm
      have hj : j = N + 1 := by
        rw [List.getElem?_eq_some_iff] at hrb
        obtain ⟨_, h⟩ := hrb
        simpa using h.symm
      rw [← ha, ← hb, hi, hj]
      exact narrow_mono _ _ (hmono N)

theorem diesIn_none (returns : Call → Bool) (hret : ∀ c, returns c = true) :
    ∀ calls : List Call, diesIn returns calls = none := by
  intro calls
  induction calls with
  | nil => rfl
  | cons c rest ih => simp [diesIn, hret c, ih]

/-- When every call returns, the loop over a library is the loop. -/
theorem frameLoopWith_returning (returns : Call → Bool) (hret : ∀ c, returns c = true)
    (w : Nat) (loc : Int) (env : Nat → FrameInput) :
    ∀ (fuel n : Nat) (flag : Bool),
      frameLoopWith returns w loc env fuel n flag =
        (frameLoop w loc env fuel n flag).map (fun t => (t, true)) := by
  intro fuel
  induction fuel with
  | zero => intro n flag; simp [frameLoopWith, frameLoop]
  | succ f ih =>
    intro n flag
    rw [frameLoopWith, frameLoop]
    simp only [hret, Bool.true_eq_false, if_false, diesIn_none returns hret, ih]
    cases flag with
    | true => simp
    | false =>
      simp only [Bool.false_eq_true, if_false]
      cases frameLoop w loc env f (n + 1) (frameBody w loc (env n) false).1 <;> simp

/-- When every call returns but the flag is already raised at loop entry, the
body is skipped: setup, one test of the loop condition, teardown, exit 0. -/
theorem mainWith_flag_raised (lib : Library) (d : Driver) (env : Nat → FrameInput)
    (fuel : Nat) (hret : ∀ c, lib.returns c = true) (hflag : lib.flagAtEntry = true) :
    mainWith lib d env (fuel + 1) = some
      { trace := setupCalls d ++ [Call.glfwWindowShouldClose d.window] ++ teardownCalls d,
        exitCode := some 0 } := by
  unfold mainWith
  rw [diesIn_none lib.returns hret, diesIn_none lib.returns hret,
    frameLoopWith_returning lib.returns hret, hflag, frameLoop_raised]
  simp [create_window]

/-- When `glGenVertexArrays` does not return, the process dies inside it:
no loop, no teardown, no exit code. -/
theorem mainWith_unloaded (env : Nat → FrameInput) (fuel : Nat) :
    mainWith unloadedLibrary failingDriver env fuel = some
      { trace := init_glfw
          ++ [ Call.glfwGetPrimaryMonitor,
               Call.glfwCreateWindow 1920 1080 "OpenGL" 0,
               Call.glfwMakeContextCurrent 0 ]
          ++ init_glew ++ [Call.glGenVertexArrays 1],
        exitCode := none } := by
  simp [mainWith, diesIn, setupCalls, init_glfw, init_glew, create_window, unloadedLibrary,
    failingDriver]

/-! ## Shader compiler -/

/-- C1: for every stage kind, source text and driver answer, `compile_shader`
returns the handle `glCreateShader` gave; it queries the info log (buffer of
512 bytes, so at most 511 characters and the terminator) and writes it to
`std::cerr` exactly when the compile status is not `GL_TRUE`; in both cases the
trace holds no `exit` / `abort` and the handle comes back to the caller. -/
theorem compile_shader_contract (o : ShaderOutcome) (type : Nat) (source : String) :
    (compile_shader o type source).1 = o.handle
    ∧ ((compile_shader o type source).2.any isInfoLogQuery = true ↔ o.status ≠ GL_TRUE)
    ∧ ((compile_shader o type source).2.any isCerrWrite = true ↔ o.status ≠ GL_TRUE)
    ∧ (compile_shader o type source).2 =
        [ Call.glCreateShader type,
          Call.glShaderSource o.handle 1 source,
          Call.glCompileShader o.handle,
          Call.glGetShaderiv o.handle GL_COMPILE_STATUS ]
        ++ (if o.status ≠ GL_TRUE then
              [ Call.glGetShaderInfoLog o.handle 512,
                Call.cerrWrite (o.infoLog.take 511),
                Call.cerrEndl ]
            else [])
    ∧ (o.infoLog.take 511).length + 1 ≤ 512
    ∧ stderrText (compile_shader o type source).2 =
        (if o.status ≠ GL_TRUE then o.infoLog.take 511 ++ ['\n'] else [])
    ∧ (compile_shader o type source).2.any isProcessFailure = false := by
  by_cases h : o.status = GL_TRUE
  · simp [compile_shader, h, isInfoLogQuery, isCerrWrite, isProcessFailure, stderrText,
      stderrOf]
  · simp [compile_shader, h, isInfoLogQuery, isCerrWrite, isProcessFailure, stderrText,
      stderrOf, infoLogBuffer]

/-- C2 fails as stated: a driver that reports a failed compilation with an
empty information log makes `compile_shader` hand the empty message to
`std::cerr`. -/
theorem compile_shader_empty_message :
    (ShaderOutcome.mk 1 0 []).status ≠ GL_TRUE
    ∧ diagnosticMessages
        (compile_shader (ShaderOutcome.mk 1 0 []) GL_FRAGMENT_SHADER "void main(").2 = [[]] := by
  constructor
  · decide
  · rfl

/-- C2 (amended): when the driver reports a compile status other than
`GL_TRUE`, `compile_shader` writes to `std::cerr` the first 511 characters of
the driver's information log followed by a line end, so the stream receives at
least one character; the message itself is non-empty exactly when the driver's
log is; the trace holds no `exit` / `abort`. -/
theorem compile_shader_failure_report (o : ShaderOutcome) (type : Nat) (source : String)
    (hfail : o.status ≠ GL_TRUE) :
    diagnosticMessages (compile_shader o type source).2 = [o.infoLog.take 511]
    ∧ stderrText (compile_shader o type source).2 = o.infoLog.take 511 ++ ['\n']
    ∧ stderrText (compile_shader o type source).2 ≠ []
    ∧ (o.infoLog.take 511 ≠ [] ↔ o.infoLog ≠ [])
    ∧ (compile_shader o type source).2.any isProcessFailure = false := by
  refine ⟨?_, ?_, ?_, ?_, ?_⟩
  · simp [compile_shader, hfail, diagnosticMessages, messageOf, infoLogBuffer]
  · simp [compile_shader, hfail, stderrText, stderrOf, infoLogBuffer]
  · simp [compile_shader, hfail, stderrText, stderrOf, infoLogBuffer]
  · cases o.infoLog <;> simp
  · simp [compile_shader, hfail, isProcessFailure]

/-- Witness for C2 (amended): a failed compilation whose log is one line. -/
theorem compile_shader_failure_report_witness :
    (ShaderOutcome.mk 7 0 "0:1: parse error".toList).status ≠ GL_TRUE
    ∧ stderrText (compile_shader (ShaderOutcome.mk 7 0 "0:1: parse error".toList)
        GL_VERTEX_SHADER "void main(").2 ≠ [] :=
  ⟨by decide,
   (compile_shader_failure_report (ShaderOutcome.mk 7 0 "0:1: parse error".toList)
      GL_VERTEX_SHADER "void main(" (by decide)).2.2.1⟩

/-! ## Program linker -/

/-- C3: for every pair of shader handles, `link_program` issues exactly
`glCreateProgram`, `glAttachShader(p, v)`, `glAttachShader(p, f)`,
`glBindFragDataLocation(p, 0, "outColor")`, `glLinkProgram(p)` in this order
(one program created, the two attachments `v` then `f`, the binding ahead of
the single link), never queries the link status, and returns `p`. -/
theorem link_program_contract (program v f : Nat) :
    (link_program program v f).1 = program
    ∧ (link_program program v f).2 =
        [ Call.glCreateProgram,
          Call.glAttachShader program v,
          Call.glAttachShader program f,
          Call.glBindFragDataLocation program 0 "outColor",
          Call.glLinkProgram program ]
    ∧ (link_program program v f).2.countP isCreateProgram = 1
    ∧ attachments (link_program program v f).2 = [(program, v), (program, f)]
    ∧ (link_program program v f).2.countP isLink = 1
    ∧ (link_program program v f).2.any isLinkStatusQuery = false := by
  refine ⟨rfl, rfl, ?_, rfl, ?_, ?_⟩ <;> simp [link_program, isCreateProgram, isLink,
    isLinkStatusQuery]

/-! ## Vertex layout -/

/-- C10: the two attribute layouts given to `glVertexAttribPointer` share the
stride of 5 floats; position is 2 floats at float offset 0, colour 3 floats at
float offset 2; for every vertex the floats they read are the five floats of
that vertex's record, each once (no overlap, nothing left out); and for each
vertex number drawn by the loop's draw call (0, 1, 2) every float read lies
below 15, the length of `vertices`, whose upload is 60 bytes long. -/
theorem attribute_layout_consistent (d : Driver) (w : Nat) (loc : Int) (inp : FrameInput)
    (sc : Bool) :
    configuredLayouts (setupCalls d) = [posLayout, colorLayout]
    ∧ posLayout.stride = 5 * sizeofFloat ∧ colorLayout.stride = 5 * sizeofFloat
    ∧ posLayout.size = 2 ∧ posLayout.offset = 0 * sizeofFloat
    ∧ colorLayout.size = 3 ∧ colorLayout.offset = 2 * sizeofFloat
    ∧ (∀ i : Nat, attribFloats posLayout i ++ attribFloats colorLayout i =
        [5 * i, 5 * i + 1, 5 * i + 2, 5 * i + 3, 5 * i + 4])
    ∧ (∀ i : Nat, ∀ x ∈ attribFloats posLayout i, x ∉ attribFloats colorLayout i)
    ∧ drawnVertices (frameBody w loc inp sc).2 = [0, 1, 2]
    ∧ (∀ i ∈ drawnVertices (frameBody w loc inp sc).2,
        ∀ x ∈ attribFloats posLayout i ++ attribFloats colorLayout i, x < vertices.length)
    ∧ vertices.length = 15
    ∧ (setupCalls d).filter writesBufferStore =
        [Call.glBufferData GL_ARRAY_BUFFER (15 * sizeofFloat) vertices GL_STATIC_DRAW] := by
  have hcover : ∀ i : Nat, attribFloats posLayout i ++ attribFloats colorLayout i =
      [5 * i, 5 * i + 1, 5 * i + 2, 5 * i + 3, 5 * i + 4] := by
    intro i
    simp only [attribFloats, posLayout, colorLayout, sizeofFloat, List.range, List.range.loop,
      List.map, List.cons_append, List.nil_append, List.cons.injEq, and_true]
    refine ⟨?_, ?_, ?_, ?_, ?_⟩ <;> omega
  have hdrawn : drawnVertices (frameBody w loc inp sc).2 = [0, 1, 2] := by
    rw [frameBody_calls]
    by_cases h : inp.escapeKey = GLFW_PRESS <;>
      simp [h, pollCalls, drawCalls, drawnVertices, verticesOf, List.range, List.range.loop]
  have hsetup : ∀ o : ShaderOutcome, ∀ ty src,
      configuredLayouts (compile_shader o ty src).2 = []
      ∧ (compile_shader o ty src).2.filter writesBufferStore = [] := by
    intro o ty src
    by_cases h : o.status = GL_TRUE <;>
      simp [compile_shader, h, configuredLayouts, layoutOf, writesBufferStore]
  refine ⟨?_, rfl, rfl, rfl, rfl, rfl, rfl, hcover, ?_, hdrawn, ?_, rfl, ?_⟩
  · have h1 := (hsetup d.vertex GL_VERTEX_SHADER vertexSource).1
    have h2 := (hsetup d.fragment GL_FRAGMENT_SHADER fragSource).1
    unfold configuredLayouts at h1 h2 ⊢
    simp [setupCalls, List.filterMap_append, h1, h2, init_glfw, init_glew, create_window,
      link_program, layoutOf]
  · intro i x hx hy
    simp only [attribFloats, posLayout, colorLayout, sizeofFloat, List.range, List.range.loop,
      List.map, List.mem_cons, List.mem_singleton, List.not_mem_nil, or_false] at hx hy
    omega
  · rw [hdrawn]
    intro i hi x hx
    rw [hcover] at hx
    simp only [List.mem_cons, List.mem_singleton, List.not_mem_nil, or_false] at hi hx
    have : vertices.length = 15 := rfl
    omega
  · have h1 := (hsetup d.vertex GL_VERTEX_SHADER vertexSource).2
    have h2 := (hsetup d.fragment GL_FRAGMENT_SHADER fragSource).2
    simp [setupCalls, List.filter_append, h1, h2, init_glfw, init_glew, create_window,
      link_program, writesBufferStore, vertices, sizeofFloat]

/-! ## Frame loop -/

/-- C4 fails as stated: an iteration of the loop issues no indexed draw
(`glDrawElements`); its one draw is the non-indexed `glDrawArrays`. -/
theorem iteration_has_no_indexed_draw :
    ¬ ∃ c ∈ iteration 1 0 { closeSignal := false, escapeKey := 0, time := 0 },
        isIndexedDraw c = true := by
  rw [iteration_calls]
  simp [pollCalls, drawCalls, isIndexedDraw, GLFW_PRESS]

/-- C4 (amended): every iteration of the loop issues, in this order and each
once: the swap, the event poll, the read of the Escape key (followed by
`glfwSetWindowShouldClose` exactly when the key is pressed), the clear of the
colour buffer (after `glClearColor`), the clock read, `glUniform1f` on the
`time` location with the narrowed reading, and one non-indexed draw
`glDrawArrays(GL_TRIANGLES, 0, 3)`; it issues no indexed draw.  The loop part
of every finished run of `main` is made of such iterations, each after one
test of the loop condition. -/
theorem iteration_sequence (d : Driver) (env : Nat → FrameInput) (i : Nat) (sc : Bool) :
    (frameBody d.window d.timeLocation (env i) sc).2 =
      [ Call.glfwSwapBuffers d.window, Call.glfwPollEvents,
        Call.glfwGetKey d.window GLFW_KEY_ESCAPE ]
      ++ (if (env i).escapeKey = GLFW_PRESS then
            [Call.glfwSetWindowShouldClose d.window GL_TRUE] else [])
      ++ [ Call.glClearColor (.fin 0) (.fin 0) (.fin 0) (.fin 1),
           Call.glClear GL_COLOR_BUFFER_BIT,
           Call.glfwGetTime,
           Call.glUniform1f d.timeLocation (narrow (env i).time),
           Call.glDrawArrays GL_TRIANGLES 0 3 ]
    ∧ (frameBody d.window d.timeLocation (env i) sc).2.countP isSwap = 1
    ∧ (frameBody d.window d.timeLocation (env i) sc).2.countP isPoll = 1
    ∧ (frameBody d.window d.timeLocation (env i) sc).2.countP isEscapeKeyRead = 1
    ∧ (frameBody d.window d.timeLocation (env i) sc).2.countP isColorClear = 1
    ∧ (frameBody d.window d.timeLocation (env i) sc).2.countP isGetTime = 1
    ∧ (frameBody d.window d.timeLocation (env i) sc).2.countP isUniform1f = 1
    ∧ (frameBody d.window d.timeLocation (env i) sc).2.countP isArrayDraw = 1
    ∧ drawnVertices (frameBody d.window d.timeLocation (env i) sc).2 = [0, 1, 2]
    ∧ (frameBody d.window d.timeLocation (env i) sc).2.any isIndexedDraw = false
    ∧ (∀ n k, iterations d.window d.timeLocation env n (k + 1) =
        (Call.glfwWindowShouldClose d.window ::
          (frameBody d.window d.timeLocation (env n) false).2)
        ++ iterations d.window d.timeLocation env (n + 1) k)
    ∧ (∀ fuel r, main d env fuel = some r →
        ∃ k, r.trace = setupCalls d
          ++ (iterations d.window d.timeLocation env 0 (k + 1)
              ++ [Call.glfwWindowShouldClose d.window])
          ++ teardownCalls d) := by
  have hmain : ∀ fuel r, main d env fuel = some r →
      ∃ k, r.trace = setupCalls d
        ++ (iterations d.window d.timeLocation env 0 (k + 1)
            ++ [Call.glfwWindowShouldClose d.window])
        ++ teardownCalls d := by
    intro fuel r hr
    obtain ⟨k, _, _, _, hk⟩ := main_some d env fuel r hr
    exact ⟨k, by rw [hk]⟩
  rw [frameBody_calls]
  by_cases h : (env i).escapeKey = GLFW_PRESS
  · refine ⟨?_, ?_, ?_, ?_, ?_, ?_, ?_, ?_, ?_, ?_, fun _ _ => rfl, hmain⟩ <;>
      simp [h, pollCalls, drawCalls, isSwap, isPoll, isEscapeKeyRead, isColorClear, isGetTime,
        isUniform1f, isArrayDraw, isIndexedDraw, drawnVertices, verticesOf, List.range,
        List.range.loop]
  · refine ⟨?_, ?_, ?_, ?_, ?_, ?_, ?_, ?_, ?_, ?_, fun _ _ => rfl, hmain⟩ <;>
      simp [h, pollCalls, drawCalls, isSwap, isPoll, isEscapeKeyRead, isColorClear, isGetTime,
        isUniform1f, isArrayDraw, isIndexedDraw, drawnVertices, verticesOf, List.range,
        List.range.loop]

/-- C5: when the Escape key is observed as pressed in iteration `k` (so no
exit condition held in iterations `0 .. k-1`), `main` returns: it finishes
iteration `k` (the flag is raised, then clear, uniform and draw follow), tests
the loop condition once more, starts no further iteration (`k + 1` swaps in
all), and the teardown calls appear once each in the whole run, in the order
program, fragment shader, vertex shader, buffer, vertex array, terminate. -/
theorem escape_closes_and_tears_down_once (d : Driver) (env : Nat → FrameInput)
    (k fuel : Nat)
    (hrun : ∀ j, j < k → closing (env j) = false)
    (hesc : (env k).escapeKey = GLFW_PRESS)
    (hfuel : k + 2 ≤ fuel) :
    ∃ r, main d env fuel = some r
      ∧ r.trace = setupCalls d
          ++ iterations d.window d.timeLocation env 0 k
          ++ ([ Call.glfwWindowShouldClose d.window,
                Call.glfwSwapBuffers d.window,
                Call.glfwPollEvents,
                Call.glfwGetKey d.window GLFW_KEY_ESCAPE,
                Call.glfwSetWindowShouldClose d.window GL_TRUE ]
              ++ drawCalls d.timeLocation (env k).time)
          ++ [Call.glfwWindowShouldClose d.window]
          ++ teardownCalls d
      ∧ r.trace.countP isSwap = k + 1
      ∧ r.trace.countP isShouldCloseTest = k + 2
      ∧ r.trace.filter isTeardownCall =
          [ Call.glDeleteProgram d.program,
            Call.glDeleteShader d.fragment.handle,
            Call.glDeleteShader d.vertex.handle,
            Call.glDeleteBuffers 1 d.vbo,
            Call.glDeleteVertexArrays 1 d.vao,
            Call.glfwTerminate ] := by
  have hk : closing (env k) = true := by simp [closing, hesc]
  refine ⟨_, main_run d env k fuel hrun hk hfuel, ?_, ?_, ?_, ?_⟩
  · simp [iteration_calls, hesc, pollCalls]
  · have hs := setupCalls_counts d
    have hi := iteration_counts d.window d.timeLocation (env k)
    have ht := teardownCalls_counts d
    simp only [List.countP_append, hs.2.1, ht.2.1, hi.2.2.1,
      iterations_countP isSwap 1 d.window d.timeLocation env
        (fun inp => (iteration_counts d.window d.timeLocation inp).2.2.1)]
    simp [isSwap]
  · have hs := setupCalls_counts d
    have hi := iteration_counts d.window d.timeLocation (env k)
    have ht := teardownCalls_counts d
    simp only [List.countP_append, hs.2.2.1, ht.2.2.1, hi.2.1,
      iterations_countP isShouldCloseTest 1 d.window d.timeLocation env
        (fun inp => (iteration_counts d.window d.timeLocation inp).2.1)]
    simp [isShouldCloseTest]
  · have hs := setupCalls_counts d
    have hi := iteration_counts d.window d.timeLocation (env k)
    have ht := teardownCalls_counts d
    simp only [List.filter_append, hs.1, ht.1, hi.1,
      iterations_filter_nil isTeardownCall d.window d.timeLocation env
        (fun inp => (iteration_counts d.window d.timeLocation inp).1)]
    simp [isTeardownCall, teardownCalls, List.filter]

/-- Witness for C5: Escape is pressed in the third iteration of a run on a
driver where everything succeeds. -/
theorem escape_closes_and_tears_down_once_witness :
    ∃ r, main sampleDriver escapeInThird 4 = some r
      ∧ r.trace.countP isSwap = 3
      ∧ r.trace.filter isTeardownCall =
          [ Call.glDeleteProgram 3, Call.glDeleteShader 2, Call.glDeleteShader 1,
            Call.glDeleteBuffers 1 1, Call.glDeleteVertexArrays 1 1, Call.glfwTerminate ] :=
  (escape_closes_and_tears_down_once sampleDriver escapeInThird 2 4
      (by decide) (by decide) (by decide)).imp
    (fun _ h => ⟨h.1, h.2.2.1, h.2.2.2.2⟩)

/-- C6: a close request delivered during the poll of iteration `k` and an
Escape press observed in iteration `k` end the run the same way.  From the
poll of iteration `k` on, both runs issue the poll, the key read, the rest of
iteration `k` (clear, clock, uniform, draw), one more test of the loop
condition and the teardown, then return 0; the Escape run alone has
`glfwSetWindowShouldClose` after the key read, the flag being raised by the
window system in the other run.  (The clock reading of iteration `k` is taken
equal in both runs.) -/
theorem close_signal_same_as_escape (d : Driver) (envE envC : Nat → FrameInput)
    (k fuel : Nat)
    (hrunE : ∀ j, j < k → closing (envE j) = false)
    (hrunC : ∀ j, j < k → closing (envC j) = false)
    (hesc : (envE k).escapeKey = GLFW_PRESS)
    (hclose : (envC k).closeSignal = true)
    (hnoesc : (envC k).escapeKey ≠ GLFW_PRESS)
    (htime : (envE k).time = (envC k).time)
    (hfuel : k + 2 ≤ fuel) :
    ∃ rE rC, main d envE fuel = some rE ∧ main d envC fuel = some rC
      ∧ rE.trace =
          (setupCalls d ++ iterations d.window d.timeLocation envE 0 k
            ++ [Call.glfwWindowShouldClose d.window, Call.glfwSwapBuffers d.window])
          ++ [ Call.glfwPollEvents,
               Call.glfwGetKey d.window GLFW_KEY_ESCAPE,
               Call.glfwSetWindowShouldClose d.window GL_TRUE ]
          ++ (drawCalls d.timeLocation (envC k).time
              ++ [Call.glfwWindowShouldClose d.window] ++ teardownCalls d)
      ∧ rC.trace =
          (setupCalls d ++ iterations d.window d.timeLocation envC 0 k
            ++ [Call.glfwWindowShouldClose d.window, Call.glfwSwapBuffers d.window])
          ++ [ Call.glfwPollEvents,
               Call.glfwGetKey d.window GLFW_KEY_ESCAPE ]
          ++ (drawCalls d.timeLocation (envC k).time
              ++ [Call.glfwWindowShouldClose d.window] ++ teardownCalls d)
      ∧ rE.exitCode = rC.exitCode
      ∧ rE.trace.countP isSwap = k + 1 ∧ rC.trace.countP isSwap = k + 1
      ∧ rE.trace.filter isTeardownCall = teardownCalls d
      ∧ rC.trace.filter isTeardownCall = teardownCalls d
      ∧ rC.trace.filter isSetShouldClose = [] := by
  have hkE : closing (envE k) = true := by simp [closing, hesc]
  have hkC : closing (envC k) = true := by simp [closing, hclose]
  have hs := setupCalls_counts d
  have ht := teardownCalls_counts d
  have hcount : ∀ env : Nat → FrameInput,
      (setupCalls d
        ++ (iterations d.window d.timeLocation env 0 k
            ++ iteration d.window d.timeLocation (env k)
            ++ [Call.glfwWindowShouldClose d.window])
        ++ teardownCalls d).countP isSwap = k + 1 := by
    intro env
    simp only [List.countP_append, hs.2.1, ht.2.1,
      (iteration_counts d.window d.timeLocation (env k)).2.2.1,
      iterations_countP isSwap 1 d.window d.timeLocation env
        (fun inp => (iteration_counts d.window d.timeLocation inp).2.2.1)]
    simp [isSwap]
  have hdown : ∀ env : Nat → FrameInput,
      (setupCalls d
        ++ (iterations d.window d.timeLocation env 0 k
            ++ iteration d.window d.timeLocation (env k)
            ++ [Call.glfwWindowShouldClose d.window])
        ++ teardownCalls d).filter isTeardownCall = teardownCalls d := by
    intro env
    simp only [List.filter_append, hs.1, ht.1,
      (iteration_counts d.window d.timeLocation (env k)).1,
      iterations_filter_nil isTeardownCall d.window d.timeLocation env
        (fun inp => (iteration_counts d.window d.timeLocation inp).1)]
    simp [isTeardownCall, List.filter]
  have hquiet : ∀ j, j < k → (iteration d.window d.timeLocation (envC j)).filter
      isSetShouldClose = [] := by
    intro j hj
    have hc := hrunC j hj
    have hne : (envC j).escapeKey ≠ GLFW_PRESS := by
      intro hp
      simp [closing, hp] at hc
    rw [iteration_calls]
    simp [hne, pollCalls, drawCalls, isSetShouldClose, List.filter]
  have hquiets : ∀ (m n : Nat), n + m ≤ k →
      (iterations d.window d.timeLocation envC n m).filter isSetShouldClose = [] := by
    intro m
    induction m with
    | zero => intro n _; simp [iterations]
    | succ m ih =>
      intro n hn
      rw [iterations, List.filter_append, hquiet n (by omega), ih (n + 1) (by omega)]
      rfl
  refine ⟨_, _, main_run d envE k fuel hrunE hkE hfuel, main_run d envC k fuel hrunC hkC hfuel,
    ?_, ?_, rfl, hcount envE, hcount envC, hdown envE, hdown envC, ?_⟩
  · simp [iteration_calls, hesc, pollCalls, htime]
  · simp [iteration_calls, hnoesc, pollCalls]
  · simp only [List.filter_append, hs.2.2.2.1, ht.2.2.2.1, hquiets k 0 (by omega)]
    rw [iteration_calls]
    simp [hnoesc, pollCalls, drawCalls, isSetShouldClose, List.filter]

/-- Witness for C6: Escape in the third iteration against a close request in
the third iteration, same driver, same clock. -/
theorem close_signal_same_as_escape_witness :
    ∃ rE rC, main failingDriver escapeInThird 5 = some rE
      ∧ main failingDriver closeInThird 5 = some rC
      ∧ rE.exitCode = rC.exitCode
      ∧ rC.trace.filter isSetShouldClose = [] :=
  (close_signal_same_as_escape failingDriver escapeInThird closeInThird 2 5
      (by decide) (by decide) (by decide) (by decide) (by decide) rfl (by decide)).imp
    (fun _ h => h.imp (fun _ g => ⟨g.1, g.2.1, g.2.2.2.2.1, g.2.2.2.2.2.2.2.2.2⟩))

/-! ## Time uniform -/

/-- C7: when successive readings of `glfwGetTime` are non-decreasing, the
values sent with `glUniform1f` are non-decreasing from each frame to the
next.  After `m` iterations the values sent are the narrowed readings of
frames `0 .. m-1`, all to the `time` location, and the clock has been read `m`
times (once a frame); the same holds of every finished run of `main`. -/
theorem time_uniform_monotone (d : Driver) (env : Nat → FrameInput)
    (hmono : ∀ i, (env i).time ≤ (env (i + 1)).time) :
    (∀ m,
      timeUniforms (setupCalls d ++ iterations d.window d.timeLocation env 0 m) =
        (List.range m).map (fun i => (d.timeLocation, narrow (env i).time))
      ∧ (setupCalls d ++ iterations d.window d.timeLocation env 0 m).countP isGetTime = m
      ∧ ∀ N a b,
          (timeUniforms
            (setupCalls d ++ iterations d.window d.timeLocation env 0 m))[N]? = some a →
          (timeUniforms
            (setupCalls d ++ iterations d.window d.timeLocation env 0 m))[N + 1]? = some b →
          a.2.leb b.2 = true)
    ∧ (∀ fuel r, main d env fuel = some r →
        ∃ frames,
          timeUniforms r.trace =
            (List.range frames).map (fun i => (d.timeLocation, narrow (env i).time))
          ∧ r.trace.countP isGetTime = frames
          ∧ ∀ N a b, (timeUniforms r.trace)[N]? = some a →
              (timeUniforms r.trace)[N + 1]? = some b → a.2.leb b.2 = true) := by
  have hs := setupCalls_counts d
  have ht := teardownCalls_counts d
  have hpre : ∀ m,
      timeUniforms (setupCalls d ++ iterations d.window d.timeLocation env 0 m) =
        (List.range m).map (fun i => (d.timeLocation, narrow (env i).time)) := by
    intro m
    have h1 := hs.2.2.2.2.2.2.1
    have h2 := iterations_timeUniforms d.window d.timeLocation env m
    unfold timeUniforms at h1 h2 ⊢
    rw [List.filterMap_append, h1, h2, List.nil_append]
  have hclock : ∀ m,
      (setupCalls d ++ iterations d.window d.timeLocation env 0 m).countP isGetTime = m := by
    intro m
    rw [List.countP_append, hs.2.2.2.2.2.2.2,
      iterations_countP isGetTime 1 d.window d.timeLocation env
        (fun inp => (iteration_counts d.window d.timeLocation inp).2.2.2.2.2.2.1)]
    omega
  constructor
  · intro m
    refine ⟨hpre m, hclock m, ?_⟩
    intro N a b ha hb
    rw [hpre m] at ha hb
    exact narrowed_readings_ordered d.timeLocation env hmono m N a b ha hb
  · intro fuel r hr
    obtain ⟨k, _, _, _, hk⟩ := main_some d env fuel r hr
    have hre : r.trace =
        (setupCalls d ++ iterations d.window d.timeLocation env 0 (k + 1))
          ++ ([Call.glfwWindowShouldClose d.window] ++ teardownCalls d) := by
      rw [hk]
      simp only [List.append_assoc]
    have htr : timeUniforms r.trace =
        (List.range (k + 1)).map (fun i => (d.timeLocation, narrow (env i).time)) := by
      have h1 := hpre (k + 1)
      have h3 := ht.2.2.2.2.2.1
      rw [hre]
      unfold timeUniforms at h1 h3 ⊢
      rw [List.filterMap_append, h1, List.filterMap_append, h3]
      simp [uniformOf]
    refine ⟨k + 1, htr, ?_, ?_⟩
    · rw [hre, List.countP_append, hclock (k + 1), List.countP_append, ht.2.2.2.2.2.2]
      simp [isGetTime]
    · intro N a b ha hb
      rw [htr] at ha hb
      exact narrowed_readings_ordered d.timeLocation env hmono (k + 1) N a b ha hb

/-- Witness for C7: sixty frames a second, Escape in the third frame; the run
sends three values. -/
theorem time_uniform_monotone_witness :
    (∀ i, (escapeInThird i).time ≤ (escapeInThird (i + 1)).time)
    ∧ ∃ r, main sampleDriver escapeInThird 4 = some r
        ∧ ∃ frames, timeUniforms r.trace =
            (List.range frames).map
              (fun i => (sampleDriver.timeLocation, narrow (escapeInThird i).time))
          ∧ r.trace.countP isGetTime = frames :=
  have hmono : ∀ i, (escapeInThird i).time ≤ (escapeInThird (i + 1)).time := fun i => by
    simp only [escapeInThird]
    push_cast
    linarith
  ⟨hmono, _, main_run sampleDriver escapeInThird 2 4 (by decide) (by decide) (by decide),
    ((time_uniform_monotone sampleDriver escapeInThird hmono).2 4 _
      (main_run sampleDriver escapeInThird 2 4 (by decide) (by decide) (by decide))).imp
      (fun _ h => ⟨h.1, h.2.1⟩)⟩

/-! ## Vertex buffer -/

/-- C8: the one upload of the setup hands the 15 floats of the three vertices
`(0,0.5,1,0,0)`, `(0.5,-0.5,0,1,0)`, `(-0.5,-0.5,0,0,1)` to `glBufferData`; for
every number `m` of iterations the loop issues no call that writes a buffer
store, rebinds or deletes a buffer, or changes vertex-array state, so the
store after `m` iterations is the store before the first one: `vertices`. -/
theorem vertex_buffer_unchanged (d : Driver) (env : Nat → FrameInput) (m : Nat) :
    vertices =
      [ .fin 0, .fin (1 / 2), .fin 1, .fin 0, .fin 0,
        .fin (1 / 2), .fin (-1 / 2), .fin 0, .fin 1, .fin 0,
        .fin (-1 / 2), .fin (-1 / 2), .fin 0, .fin 0, .fin 1 ]
    ∧ vertices.length = 15
    ∧ (setupCalls d).filter writesBufferStore =
        [Call.glBufferData GL_ARRAY_BUFFER (15 * sizeofFloat) vertices GL_STATIC_DRAW]
    ∧ (iterations d.window d.timeLocation env 0 m).filter writesBufferStore = []
    ∧ (iterations d.window d.timeLocation env 0 m).filter rebindsBuffer = []
    ∧ (iterations d.window d.timeLocation env 0 m).filter writesVertexArray = []
    ∧ bufferStore (setupCalls d) = some vertices
    ∧ bufferStore (setupCalls d ++ iterations d.window d.timeLocation env 0 m) =
        bufferStore (setupCalls d)
    ∧ bufferStore (setupCalls d ++ iterations d.window d.timeLocation env 0 3) =
        some vertices := by
  have hstore : ∀ j, bufferStore (setupCalls d ++ iterations d.window d.timeLocation env 0 j) =
      bufferStore (setupCalls d) := by
    intro j
    unfold bufferStore
    rw [List.foldl_append, iterations_store]
  refine ⟨rfl, rfl, (setupCalls_store d).2, ?_, ?_, ?_, (setupCalls_store d).1, hstore m, ?_⟩
  · exact iterations_filter_nil _ _ _ _ (fun inp => (iteration_store _ _ inp none).2.1) m 0
  · exact iterations_filter_nil _ _ _ _ (fun inp => (iteration_store _ _ inp none).2.2.1) m 0
  · exact iterations_filter_nil _ _ _ _ (fun inp => (iteration_store _ _ inp none).2.2.2) m 0
  · rw [hstore 3, (setupCalls_store d).1]

/-! ## Failure outcomes -/

end ColorsUniforms
